import Mathlib

/-!
Verification of the Zuber taxi-data analysis pipeline (Zuber_Project.ipynb).

The notebook is a linear pandas script: load three CSV tables (with a
fallback path), sort taxi companies by trip count, take the top-10
neighborhoods by average drop-offs, filter rides to Saturdays in a date
window, split the filtered rides by weather category, and run Welch's
t-test on the two duration samples.

The embedding below models the tabular rows as Lean structures and the
pandas operations as list functions:
  - `sort_values(by=k, ascending=False)`  -> `List.mergeSort` with a
    descending comparator (the claims under study concern only the
    permutation and sortedness properties, which hold for any comparison
    sort, so the choice of sorting algorithm is immaterial);
  - `df.head(n)`                           -> `pandas_head` (Python slice
    `[:n]`, which for negative `n` drops the last `|n|` rows);
  - boolean-mask filtering                 -> `List.filter`;
  - timestamps (`datetime64`)              -> `Nat` seconds since an epoch
    whose day 0 falls on a Thursday (as 1970-01-01 does), so that the
    pandas `dayofweek` convention (Monday = 0) makes day `d` have weekday
    `(d + 3) % 7`;
  - comparison of a datetime column with a date string `"YYYY-MM-DD"`
    -> comparison of the second count with `date * 86400`, because pandas
    parses the bare date string as midnight of that date.
-/

namespace Zuber

/-- Row of `taxi_df` (`moved_project_sql_result_01.csv`): a taxi company and
its total number of trips. -/
structure Operator where
  company_name : String
  trips_amount : Nat
deriving DecidableEq, Repr

/-- Row of `neighborhood_df` (`moved_project_sql_result_04.csv`): a drop-off
location and its average number of trips. -/
structure Neighborhood where
  dropoff_location_name : String
  average_trips : ℚ
deriving DecidableEq, Repr

/-- Row of `rides_df` (`moved_project_sql_result_07.csv`) after the
`start_ts` column has been parsed to a datetime: start timestamp in seconds,
weather category string, and ride duration. -/
structure Ride where
  start_ts : Nat
  weather_conditions : String
  duration_seconds : ℚ
deriving DecidableEq, Repr

/-- Calendar day number of a timestamp (seconds since the epoch). -/
def dateOf (ts : Nat) : Nat := ts / 86400

/-- Pandas `Series.dt.dayofweek` (Monday = 0, ..., Saturday = 5, Sunday = 6)
for an epoch whose day 0 is a Thursday (weekday 3), as 1970-01-01 is. -/
def dayofweek (ts : Nat) : Nat := (dateOf ts + 3) % 7

/-- The notebook's Saturday filter (cell building `rides_saturdays`),
generalized over its three constants:

  `rides_df[(rides_df['start_ts'].dt.dayofweek == 5) &
            (rides_df['start_ts'] >= "2017-11-01") &
            (rides_df['start_ts'] <= "2017-11-30")]`

A `datetime64` column compared with a bare date string compares against
midnight of that date, hence the bounds `sd * 86400` and `ed * 86400`. -/
def select_window (rides : List Ride) (dow sd ed : Nat) : List Ride :=
  rides.filter fun r =>
    decide (dayofweek r.start_ts = dow ∧
      sd * 86400 ≤ r.start_ts ∧ r.start_ts ≤ ed * 86400)

/-- The filter as the specification words it: weekday matches and the
record's *date* lies in the inclusive range `[sd, ed]`. Stated only to be
compared with `select_window`, which is the code's behavior. -/
def select_window_claimed (rides : List Ride) (dow sd ed : Nat) : List Ride :=
  rides.filter fun r =>
    decide (dayofweek r.start_ts = dow ∧
      sd ≤ dateOf r.start_ts ∧ dateOf r.start_ts ≤ ed)

/-- `taxi_df.sort_values(by="trips_amount", ascending=False)` (the cell
building `sorted_taxi_df`). -/
def rank_by_count (ops : List Operator) : List Operator :=
  ops.mergeSort fun x y => decide (y.trips_amount ≤ x.trips_amount)

/-- Python slice `l[:n]`, the semantics of `DataFrame.head(n)`: for
`n ≥ 0` the first `n` rows, for `n < 0` all rows but the last `|n|`. -/
def pandas_head (l : List α) (n : Int) : List α :=
  if 0 ≤ n then l.take n.toNat else l.take (l.length - (-n).toNat)

/-- `neighborhood_df.sort_values(by="average_trips", ascending=False).head(n)`
(the cell building `top_neighborhoods`, which uses `n = 10`). -/
def top_n (ns : List Neighborhood) (n : Int) : List Neighborhood :=
  pandas_head (ns.mergeSort fun x y => decide (y.average_trips ≤ x.average_trips)) n

/-- The two duration samples (cells building `good_weather_durations` and
`bad_weather_durations`):

  `rides_saturdays[rides_saturdays['weather_conditions'] == 'Good']['duration_seconds']`
  `rides_saturdays[rides_saturdays['weather_conditions'] == 'Bad']['duration_seconds']` -/
def partition_by_weather (rides : List Ride) : List ℚ × List ℚ :=
  ((rides.filter fun r => r.weather_conditions == "Good").map Ride.duration_seconds,
   (rides.filter fun r => r.weather_conditions == "Bad").map Ride.duration_seconds)

/-- Single-pass splitting as the specification describes it: each record is
routed to the "Good" sample, to the "Bad" sample, or discarded. Stated to be
compared with `partition_by_weather`, which is the code's behavior. -/
def partition_by_weather_spec : List Ride → List ℚ × List ℚ
  | [] => ([], [])
  | r :: rest =>
    let p := partition_by_weather_spec rest
    if r.weather_conditions = "Good" then (r.duration_seconds :: p.1, p.2)
    else if r.weather_conditions = "Bad" then (p.1, r.duration_seconds :: p.2)
    else p

/-- Statistic pair returned by `scipy.stats.ttest_ind`. -/
structure TTestResult where
  t_statistic : ℝ
  p_value : ℝ

/-- Sample mean, as computed inside `scipy.stats.ttest_ind`. -/
noncomputable def sampleMean (xs : List ℝ) : ℝ := xs.sum / xs.length

/-- Unbiased sample variance (`ddof = 1`), as computed inside
`scipy.stats.ttest_ind`. -/
noncomputable def sampleVar (xs : List ℝ) : ℝ :=
  ((xs.map fun x => (x - sampleMean xs) ^ 2).sum) / ((xs.length : ℝ) - 1)

/-- Squared standard error of the difference of means for unequal variances:
`va / na + vb / nb`. -/
noncomputable def seSq (a b : List ℝ) : ℝ :=
  sampleVar a / a.length + sampleVar b / b.length

/-- Welch–Satterthwaite degrees of freedom used by
`ttest_ind(..., equal_var=False)`. -/
noncomputable def welchDf (a b : List ℝ) : ℝ :=
  seSq a b ^ 2 /
    ((sampleVar a / a.length) ^ 2 / ((a.length : ℝ) - 1) +
     (sampleVar b / b.length) ^ 2 / ((b.length : ℝ) - 1))

/-- Density of Student's t distribution with `df` degrees of freedom. -/
noncomputable def studentTPdf (df x : ℝ) : ℝ :=
  Real.Gamma ((df + 1) / 2) / (Real.sqrt (df * Real.pi) * Real.Gamma (df / 2)) *
    (1 + x ^ 2 / df) ^ (-((df + 1) / 2))

/-- Upper-tail probability of Student's t distribution, the `sf` that scipy
evaluates to turn the statistic into a p-value. -/
noncomputable def studentTailProb (df t : ℝ) : ℝ :=
  ∫ y in Set.Ioi t, studentTPdf df y

/-- `st.ttest_ind(a, b, equal_var=False)`: Welch's two-sample t-test with the
default two-sided p-value `2 * sf(|t|, df)`. -/
noncomputable def welch_t_test (a b : List ℝ) : TTestResult :=
  { t_statistic := (sampleMean a - sampleMean b) / Real.sqrt (seSq a b)
  , p_value := 2 * studentTailProb (welchDf a b)
      |(sampleMean a - sampleMean b) / Real.sqrt (seSq a b)| }

/-- Checked rational division: `none` exactly when the computation divides by
zero, which in the floating-point original is the point where a NaN (an
IEEE invalid-operation condition) is produced. -/
def qdiv (x y : ℚ) : Option ℚ := if y = 0 then none else some (x / y)

/-- Sample mean with its division made explicit (fails on an empty sample). -/
def meanQ (xs : List ℚ) : Option ℚ := qdiv xs.sum (xs.length : ℚ)

/-- Unbiased sample variance (`ddof = 1`) with its divisions made explicit:
fails on samples with fewer than two observations, where the divisor
`n - 1` is zero and the variance is undefined. -/
def varQ (xs : List ℚ) : Option ℚ :=
  (meanQ xs).bind fun m =>
    qdiv ((xs.map fun x => (x - m) ^ 2).sum) ((xs.length : ℚ) - 1)

/-- The exact-arithmetic core of `st.ttest_ind(a, b, equal_var=False)` with
every division checked: it returns the mean difference (the numerator of the
t statistic), the squared standard error (whose square root is the
denominator), and the Welch–Satterthwaite degrees of freedom, or `none` as
soon as any of the divisions that scipy performs is a division by zero. -/
def welch_t_test_exact (a b : List ℚ) : Option (ℚ × ℚ × ℚ) :=
  (meanQ a).bind fun ma =>
  (meanQ b).bind fun mb =>
  (varQ a).bind fun va =>
  (varQ b).bind fun vb =>
  (qdiv va (a.length : ℚ)).bind fun sa =>
  (qdiv vb (b.length : ℚ)).bind fun sb =>
  (qdiv (sa ^ 2) ((a.length : ℚ) - 1)).bind fun da =>
  (qdiv (sb ^ 2) ((b.length : ℚ) - 1)).bind fun db =>
  (qdiv ((sa + sb) ^ 2) (da + db)).bind fun df =>
  some (ma - mb, sa + sb, df)

/-- Notebook variables assigned by the loading cell; `none` models a name
that has not been assigned. CSV contents are abstracted to a token. -/
structure LoadVars where
  taxi_df : Option Nat
  neighborhood_df : Option Nat
  rides_df : Option Nat
deriving DecidableEq, Repr

/-- Sequential `pd.read_csv` of the three files at paths `q1, q2, q3` over a
file system `fs`, with Python assignment semantics: a missing file aborts the
block (the Boolean), and the assignments made before the abort persist. -/
def attempt3 (fs : String → Option Nat) (q1 q2 q3 : String) (v : LoadVars) :
    LoadVars × Bool :=
  match fs q1 with
  | none => (v, false)
  | some t =>
    match fs q2 with
    | none => ({ v with taxi_df := some t }, false)
    | some n =>
      match fs q3 with
      | none => ({ v with taxi_df := some t, neighborhood_df := some n }, false)
      | some r =>
        ({ taxi_df := some t, neighborhood_df := some n, rides_df := some r }, true)

/-- Cell 4 of the notebook: try the three primary paths; on a
`FileNotFoundError`, try the three `/mnt/data/` paths; if that also fails,
print a message (returned here as the `Option String`) and continue. -/
def cell4 (fs : String → Option Nat) : LoadVars × Option String :=
  let first := attempt3 fs "moved_project_sql_result_01.csv"
    "moved_project_sql_result_04.csv" "moved_project_sql_result_07.csv"
    { taxi_df := none, neighborhood_df := none, rides_df := none }
  if first.2 then (first.1, none)
  else
    let second := attempt3 fs "/mnt/data/moved_project_sql_result_01.csv"
      "/mnt/data/moved_project_sql_result_04.csv"
      "/mnt/data/moved_project_sql_result_07.csv" first.1
    if second.2 then (second.1, none)
    else (second.1,
      some "Files not found. Please ensure the file paths are correct or upload the files.")

/-- Cell 5 of the notebook: an unconditional `pd.read_csv` of the three
primary paths with no surrounding `try`, so a missing file raises an
uncaught `FileNotFoundError`. -/
def cell5 (fs : String → Option Nat) : Except String (Nat × Nat × Nat) :=
  match fs "moved_project_sql_result_01.csv" with
  | none => Except.error "FileNotFoundError"
  | some t =>
    match fs "moved_project_sql_result_04.csv" with
    | none => Except.error "FileNotFoundError"
    | some n =>
      match fs "moved_project_sql_result_07.csv" with
      | none => Except.error "FileNotFoundError"
      | some r => Except.ok (t, n, r)

/-- The notebook's full loading behavior: cell 4 (guarded, with fallback and
message) followed by cell 5 (unguarded re-read of the primary paths, which
overwrites the three variables or raises). -/
def notebook_load (fs : String → Option Nat) :
    Except String (LoadVars × Option String) :=
  let c4 := cell4 fs
  match cell5 fs with
  | Except.error e => Except.error e
  | Except.ok (t, n, r) =>
    Except.ok ({ taxi_df := some t, neighborhood_df := some n, rides_df := some r }, c4.2)

/-- File system on which only the three secondary `/mnt/data/` files exist:
the primary-path files are missing. -/
def fs_secondary_only : String → Option Nat := fun p =>
  if p = "/mnt/data/moved_project_sql_result_01.csv" then some 11
  else if p = "/mnt/data/moved_project_sql_result_04.csv" then some 14
  else if p = "/mnt/data/moved_project_sql_result_07.csv" then some 17
  else none

/-- Value of the `start_ts` column of one row: either still the raw CSV
string or already parsed to a datetime (second count). -/
inductive TsVal where
  | raw (s : String)
  | dt (t : Nat)
deriving DecidableEq, Repr

/-- True when the column value has been parsed to a datetime. -/
def TsVal.isDt : TsVal → Bool
  | TsVal.raw _ => false
  | TsVal.dt _ => true

/-- `pd.to_datetime` on one column value: parses a raw string, and is the
identity on a value that is already a datetime. -/
def to_datetime (parse : String → Nat) : TsVal → TsVal
  | TsVal.raw s => TsVal.dt (parse s)
  | TsVal.dt t => TsVal.dt t

/-- Row of `rides_df` as stored in the notebook state, before the `start_ts`
column is necessarily parsed. -/
structure RideRow where
  start_ts : TsVal
  weather_conditions : String
  duration_seconds : ℚ
deriving DecidableEq, Repr

/-- Timestamp seconds of a parsed column value. The `raw` case is
unreachable in the pipeline (the stage converts the column before
comparing; pandas would raise on comparing raw strings with a timestamp)
and is given an arbitrary value that no theorem depends on. -/
def tsOf : TsVal → Nat
  | TsVal.dt t => t
  | TsVal.raw _ => 0

/-- The notebook's three loaded tables, the shared state the pipeline
stages read. -/
structure NotebookState where
  taxi : List Operator
  neighborhood : List Neighborhood
  rides : List RideRow
deriving DecidableEq, Repr

/-- `pd.to_datetime(rides_df['start_ts'])` applied to one row. -/
def convertRow (parse : String → Nat) (r : RideRow) : RideRow :=
  { r with start_ts := to_datetime parse r.start_ts }

/-- `select_window` over stored rows (used after the column conversion). -/
def select_window_row (rides : List RideRow) (dow sd ed : Nat) : List RideRow :=
  rides.filter fun r =>
    decide (dayofweek (tsOf r.start_ts) = dow ∧
      sd * 86400 ≤ tsOf r.start_ts ∧ tsOf r.start_ts ≤ ed * 86400)

/-- Stage building `sorted_taxi_df`: reads `taxi_df` from the state and
returns the sorted copy together with the state after the stage. -/
def stage_rank (s : NotebookState) : List Operator × NotebookState :=
  (rank_by_count s.taxi, s)

/-- Stage building `top_neighborhoods`: reads `neighborhood_df` and returns
the sorted-and-truncated copy together with the state after the stage. -/
def stage_top (s : NotebookState) : List Neighborhood × NotebookState :=
  (top_n s.neighborhood 10, s)

/-- Stage building `rides_saturdays` (cell 17): reassigns
`rides_df['start_ts'] = pd.to_datetime(rides_df['start_ts'])` — the one
in-place column write of the pipeline — and then filters the converted
table. -/
def stage_select (parse : String → Nat) (dow sd ed : Nat) (s : NotebookState) :
    List RideRow × NotebookState :=
  (select_window_row (s.rides.map (convertRow parse)) dow sd ed,
   { s with rides := s.rides.map (convertRow parse) })

/-- Stage building `good_weather_durations` / `bad_weather_durations`: reads
only the window produced by the previous stage. -/
def stage_partition (s : NotebookState) (window : List RideRow) :
    (List ℚ × List ℚ) × NotebookState :=
  (((window.filter fun r => r.weather_conditions == "Good").map RideRow.duration_seconds,
    (window.filter fun r => r.weather_conditions == "Bad").map RideRow.duration_seconds), s)

/-- Concrete one-ride state used to instantiate the frame theorem: the
`start_ts` column is already parsed, as it is after the loading cell. -/
def sample_state : NotebookState :=
  { taxi := [], neighborhood := [], rides := [⟨TsVal.dt 86400, "Good", 300⟩] }

/-- Claim C1 counterexample: a ride starting one second after midnight of
the end date has its date inside the inclusive range `[sd, ed]` and falls on
the requested weekday — the specification-worded filter keeps it — yet the
code's filter drops it, because the code compares the full timestamp against
midnight of the end date. -/
theorem select_window_end_date_cex :
    select_window [⟨1, "Good", 300⟩] 3 0 0 = [] ∧
    select_window_claimed [⟨1, "Good", 300⟩] 3 0 0 = [⟨1, "Good", 300⟩] := by
  constructor <;> decide

/-- Claim C1 (amended): `select_window` returns exactly the records whose
weekday matches and whose timestamp is at most midnight of the end date:
equivalently, the date lies in `[sd, ed]` but a record dated `ed` is kept
only when its time of day is exactly 00:00:00. Order is preserved and no
other record is returned, since the result is a filter of the input by that
pointwise condition. -/
theorem select_window_characterization (rides : List Ride) (dow sd ed : Nat) :
    select_window rides dow sd ed = rides.filter fun r =>
      decide (dayofweek r.start_ts = dow ∧ sd ≤ dateOf r.start_ts ∧
        (dateOf r.start_ts < ed ∨ r.start_ts = ed * 86400)) := by
  unfold select_window
  apply List.filter_congr
  intro r _
  simp only [decide_eq_decide, dayofweek, dateOf]
  omega

/-- Claim C8: filtering an already-filtered result with the same weekday and
date-range parameters returns it unchanged. -/
theorem select_window_idempotent (rides : List Ride) (dow sd ed : Nat) :
    select_window (select_window rides dow sd ed) dow sd ed =
      select_window rides dow sd ed := by
  unfold select_window
  rw [List.filter_filter]
  simp [Bool.and_self]

/-- Claim C4: the ranked operator list is a permutation of the input whose
`trips_amount` values are monotonically non-increasing from first to last. -/
theorem rank_by_count_perm_sorted (ops : List Operator) :
    (rank_by_count ops).Perm ops ∧
    (rank_by_count ops).Pairwise fun x y => y.trips_amount ≤ x.trips_amount := by
  refine ⟨List.mergeSort_perm ops _, ?_⟩
  have hs := @List.sorted_mergeSort Operator
    (fun x y => decide (y.trips_amount ≤ x.trips_amount))
    (fun a b c hab hbc => by
      simp only [decide_eq_true_eq] at hab hbc ⊢
      omega)
    (fun a b => by
      simp only [Bool.or_eq_true, decide_eq_true_eq]
      omega)
    ops
  exact hs.imp fun h => by simpa using h

/-- Claim C5 counterexample: with a negative argument, `head` follows Python
slice semantics and returns all rows but the last `|n|`, not the empty
sequence: on a two-record input, `top_n … (-1)` returns one record even
though `-1 ≤ 0`. -/
theorem top_n_negative_cex :
    (top_n [⟨"Loop", 10⟩, ⟨"River North", 9⟩] (-1)).length = 1 ∧
    (-1 : Int) ≤ 0 := by
  constructor
  · simp [top_n, pandas_head, List.length_take, List.length_mergeSort]
  · decide

/-- Claim C5 (amended): for `n ≥ 0`, `top_n` returns `min n (input length)`
records — never more than `n`, never more than the input has, and all of
them when the input has fewer than `n`; for `n < 0` it returns all but the
last `|n|` records (Python slice semantics), not the empty sequence. -/
theorem top_n_length_spec (ns : List Neighborhood) (n : Int) :
    (top_n ns n).length =
      (if 0 ≤ n then min n.toNat ns.length else ns.length - (-n).toNat) ∧
    (top_n ns n).length ≤ ns.length ∧
    ((ns.length : Int) ≤ n → (top_n ns n).Perm ns) := by
  refine ⟨?_, ?_, ?_⟩
  · unfold top_n pandas_head
    split
    · simp [List.length_take, List.length_mergeSort]
    · simp [List.length_take, List.length_mergeSort]
  · unfold top_n pandas_head
    split <;> simp [List.length_take, List.length_mergeSort]
  · intro h
    have hn : ns.length ≤ n.toNat := by omega
    unfold top_n pandas_head
    have h0 : (0 : Int) ≤ n := le_trans (by omega) h
    rw [if_pos h0, List.take_of_length_le (by simpa [List.length_mergeSort] using hn)]
    exact List.mergeSort_perm ns _

/-- Claim C5 witness: at the concrete input `[⟨"Loop", 10⟩]` with `n = 5`
the hypothesis of the permutation part holds and the amended claim follows. -/
theorem top_n_length_spec_witness :
    (([⟨"Loop", 10⟩] : List Neighborhood).length : Int) ≤ 5 ∧
    (top_n [⟨"Loop", 10⟩] 5).Perm [⟨"Loop", 10⟩] :=
  ⟨by decide, (top_n_length_spec [⟨"Loop", 10⟩] 5).2.2 (by decide)⟩

/-- Claim C6: the two weather filters of the notebook compute exactly the
single-pass split the specification describes: each record's duration goes
to the "Good" sample, to the "Bad" sample, or — for any other category —
to neither. -/
theorem partition_by_weather_eq_spec (rides : List Ride) :
    partition_by_weather rides = partition_by_weather_spec rides := by
  induction rides with
  | nil => rfl
  | cons r rest ih =>
    simp only [partition_by_weather, List.filter_cons] at ih ⊢
    by_cases hg : r.weather_conditions = "Good"
    · simp [partition_by_weather_spec, hg, ← ih]
    · by_cases hb : r.weather_conditions = "Bad"
      · simp [partition_by_weather_spec, hg, hb, ← ih]
      · simp [partition_by_weather_spec, hg, hb, ← ih]

/-- Claim C10: the "Good" and "Bad" predicates are mutually exclusive, so
each record contributes its duration to at most one sample and the output
lengths sum to at most the input length. -/
theorem partition_by_weather_lengths (rides : List Ride) :
    (partition_by_weather rides).1.length + (partition_by_weather rides).2.length
      ≤ rides.length := by
  induction rides with
  | nil => simp [partition_by_weather]
  | cons r rest ih =>
    simp only [partition_by_weather, List.filter_cons, List.length_map] at ih ⊢
    by_cases hg : r.weather_conditions = "Good"
    · simp [hg]
      omega
    · by_cases hb : r.weather_conditions = "Bad"
      · simp [hg, hb]
        omega
      · simp [hg, hb]
        omega

/-- Claim C2: on the file system where the primary-path files are missing
and the secondary `/mnt/data/` files exist, cell 4's fallback succeeds and
prints no message — yet the notebook's loading still raises, because cell 5
unconditionally re-reads the primary paths outside any handler. This
contradicts the claimed behavior that a failure is reported only when both
paths fail and that no raised failure propagates further. -/
theorem loader_fallback_defeated :
    (cell4 fs_secondary_only).2 = none ∧
    (cell4 fs_secondary_only).1 =
      { taxi_df := some 11, neighborhood_df := some 14, rides_df := some 17 } ∧
    notebook_load fs_secondary_only = Except.error "FileNotFoundError" := by
  refine ⟨rfl, rfl, rfl⟩

/-- Claim C3: swapping the two samples negates the Welch t statistic and
leaves the two-sided p-value unchanged. -/
theorem welch_t_test_swap (a b : List ℝ) (ha : 2 ≤ a.length) (hb : 2 ≤ b.length) :
    (welch_t_test a b).t_statistic = -(welch_t_test b a).t_statistic ∧
    (welch_t_test a b).p_value = (welch_t_test b a).p_value := by
  have hse : seSq a b = seSq b a := add_comm _ _
  have ht : (sampleMean a - sampleMean b) / Real.sqrt (seSq a b)
      = -((sampleMean b - sampleMean a) / Real.sqrt (seSq b a)) := by
    rw [hse, ← neg_div, neg_sub]
  have hdf : welchDf a b = welchDf b a := by
    unfold welchDf
    rw [hse, add_comm ((sampleVar a / (a.length : ℝ)) ^ 2 / ((a.length : ℝ) - 1))]
  constructor
  · exact ht
  · show (2 : ℝ) * studentTailProb (welchDf a b)
        |(sampleMean a - sampleMean b) / Real.sqrt (seSq a b)|
      = 2 * studentTailProb (welchDf b a)
        |(sampleMean b - sampleMean a) / Real.sqrt (seSq b a)|
    rw [hdf, ht, abs_neg]

/-- Claim C3 witness: the swap symmetry instantiated at the concrete samples
`[1, 2]` and `[3, 4, 5]`, each with at least two observations. -/
theorem welch_t_test_swap_witness :
    2 ≤ ([1, 2] : List ℝ).length ∧ 2 ≤ ([3, 4, 5] : List ℝ).length ∧
    ((welch_t_test [1, 2] [3, 4, 5]).t_statistic
        = -(welch_t_test [3, 4, 5] [1, 2]).t_statistic ∧
      (welch_t_test [1, 2] [3, 4, 5]).p_value
        = (welch_t_test [3, 4, 5] [1, 2]).p_value) :=
  ⟨by decide, by decide, welch_t_test_swap [1, 2] [3, 4, 5] (by decide) (by decide)⟩

/-- Variance of a sample with fewer than two observations is undefined: the
checked computation hits a division by zero (by the length for the mean of
an empty sample, by `n - 1` for the variance of a singleton). -/
theorem varQ_of_short (xs : List ℚ) (h : xs.length < 2) : varQ xs = none := by
  rcases xs with _ | ⟨x, _ | ⟨y, rest⟩⟩
  · rfl
  · simp [varQ, meanQ, qdiv]
  · simp only [List.length_cons] at h
    omega

/-- Claim C7: whenever either sample has fewer than two observations, the
exact Welch computation encounters a division by zero (the undefined
variance) and fails. -/
theorem welch_t_test_exact_short (a b : List ℚ) (h : a.length < 2 ∨ b.length < 2) :
    welch_t_test_exact a b = none := by
  rcases h with h | h
  · cases hma : meanQ a with
    | none => simp [welch_t_test_exact, hma]
    | some ma =>
      cases hmb : meanQ b with
      | none => simp [welch_t_test_exact, hma, hmb]
      | some mb => simp [welch_t_test_exact, hma, hmb, varQ_of_short a h]
  · cases hma : meanQ a with
    | none => simp [welch_t_test_exact, hma]
    | some ma =>
      cases hmb : meanQ b with
      | none => simp [welch_t_test_exact, hma, hmb]
      | some mb =>
        cases hva : varQ a with
        | none => simp [welch_t_test_exact, hma, hmb, hva]
        | some va => simp [welch_t_test_exact, hma, hmb, hva, varQ_of_short b h]

/-- Claim C7 witness: at the concrete samples `[5]` (one observation) and
`[1, 2]`, the computation fails. -/
theorem welch_t_test_exact_short_witness :
    (([5] : List ℚ).length < 2 ∨ ([1, 2] : List ℚ).length < 2) ∧
    welch_t_test_exact [5] [1, 2] = none :=
  ⟨Or.inl (by decide), welch_t_test_exact_short [5] [1, 2] (Or.inl (by decide))⟩

/-- Mapping the column conversion over rows whose `start_ts` is already
parsed changes nothing, since `pd.to_datetime` is the identity on a
datetime value. -/
theorem convertRow_map_id (parse : String → Nat) (l : List RideRow)
    (h : ∀ r ∈ l, (r.start_ts).isDt = true) :
    l.map (convertRow parse) = l := by
  induction l with
  | nil => rfl
  | cons r rest ih =>
    have hr := h r (List.mem_cons_self r rest)
    have hrest : ∀ x ∈ rest, (x.start_ts).isDt = true :=
      fun x hx => h x (List.mem_cons_of_mem r hx)
    simp only [List.map_cons, ih hrest]
    obtain ⟨ts, w, d⟩ := r
    cases ts with
    | raw str => simp [TsVal.isDt] at hr
    | dt t => rfl

/-- Claim C9: each of the four pipeline stages leaves the three loaded
collections unchanged. The first, second and fourth stages only read the
state; the third also rewrites the `start_ts` column, but on a state whose
column is already parsed (as the loading cell leaves it) the rewrite is the
identity. -/
theorem pipeline_stages_preserve_state (parse : String → Nat) (dow sd ed : Nat)
    (s : NotebookState) (window : List RideRow)
    (h : ∀ r ∈ s.rides, (r.start_ts).isDt = true) :
    (stage_rank s).2 = s ∧ (stage_top s).2 = s ∧
    (stage_select parse dow sd ed s).2 = s ∧ (stage_partition s window).2 = s := by
  refine ⟨rfl, rfl, ?_, rfl⟩
  show ({ s with rides := s.rides.map (convertRow parse) } : NotebookState) = s
  rw [convertRow_map_id parse s.rides h]

/-- Claim C9 witness: the frame property instantiated at a concrete one-ride
state with a parsed timestamp column and the notebook's own parameters. -/
theorem pipeline_stages_preserve_state_witness :
    (∀ r ∈ sample_state.rides, (r.start_ts).isDt = true) ∧
    ((stage_rank sample_state).2 = sample_state ∧
     (stage_top sample_state).2 = sample_state ∧
     (stage_select (fun _ => 0) 5 17105 17135 sample_state).2 = sample_state ∧
     (stage_partition sample_state []).2 = sample_state) :=
  ⟨by decide,
   pipeline_stages_preserve_state (fun _ => 0) 5 17105 17135 sample_state [] (by decide)⟩

end Zuber
